import Mathlib

/-!
Verification of the skyscraper-dashboard filtering and aggregation logic
(`main.py`). The table is embedded as a list of records; pandas missing
values (NaN) in the completed-year column are embedded as `Option.none`,
matching the load-time replacement of the zero sentinel, and a numeric
comparison against a missing value is false, as in pandas. Heights are
embedded as rationals; numpy rounding is round-half-to-even.
-/

namespace Skyscrapers

/-- One row of the table after the normalization done at load time
(lines 12 to 14 of main.py): missing city replaced by a sentinel string,
dotted column names rewritten, and a completed year of 0 replaced by a
missing value (`none`). Only the columns used by the filter and the views
are carried; the dropped purpose and id columns (line 94) are omitted. -/
structure Record where
  location_city : String
  status_completed_year : Option Int
  statistics_height : Rat
  location_latitude : Option Rat
  location_longitude : Option Rat
deriving DecidableEq, Repr

/-- The sidebar filter inputs (lines 57 to 73 of main.py): a year range,
a height range, and a possibly empty list of selected cities. -/
structure FilterParams where
  yearMin : Int
  yearMax : Int
  heightMin : Rat
  heightMax : Rat
  cities : List String
deriving DecidableEq, Repr

/-- The year-range test of lines 77 and 78: both pandas comparisons
against a missing year (NaN) are false, so a record with unknown year
never passes. -/
def yearPass (p : FilterParams) (r : Record) : Bool :=
  match r.status_completed_year with
  | none => false
  | some y => decide (p.yearMin ≤ y) && decide (y ≤ p.yearMax)

/-- The height-range test of lines 79 and 80. -/
def heightPass (p : FilterParams) (r : Record) : Bool :=
  decide (p.heightMin ≤ r.statistics_height) &&
    decide (r.statistics_height ≤ p.heightMax)

/-- The boolean-mask selection of lines 76 to 81: rows passing both the
year-range and the height-range tests. -/
def yearHeightFilter (p : FilterParams) (df : List Record) : List Record :=
  df.filter fun r => yearPass p r && heightPass p r

/-- The Filter Engine (lines 76 to 83 of main.py): the year and height
mask is applied first; the `isin` city mask is applied only when the
multiselect list is nonempty. -/
def filtered_df (p : FilterParams) (df : List Record) : List Record :=
  let base := yearHeightFilter p df
  if p.cities.isEmpty then base
  else base.filter fun r => decide (r.location_city ∈ p.cities)

/-- Round-half-to-even of the fraction `n / d` (with `d` positive) to an
integer, the rounding used by numpy and by the python builtin `round` on
floats. `Int.fdiv` of numerator by denominator is the floor of the
fraction, `rem / d` its fractional part, and `rem / d` compares to `1/2`
as `2 * rem` compares to `d`; on a tie the even neighbour is chosen. -/
def roundHalfToEvenND (n d : Int) : Int :=
  let f : Int := n.fdiv d
  let rem : Int := n - f * d
  if 2 * rem < d then f
  else if 2 * rem = d then (if f % 2 = 0 then f else f + 1)
  else f + 1

/-- Round-half-to-even of a rational to an integer. -/
def roundHalfToEven (q : Rat) : Int := roundHalfToEvenND q.num q.den

/-- Round to two decimal places, as `round(x, 2)` on line 165: the value
`q * 100` is the fraction with numerator `q.num * 100` and denominator
`q.den`. -/
def roundTo2 (q : Rat) : Rat := (roundHalfToEvenND (q.num * 100) q.den : Rat) / 100

/-- Line 111 of main.py, executed while rendering the 3D-map tab: the
height column of the shared filtered table is reassigned to its values
rounded to the nearest whole meter. -/
def tab2_round_heights (df : List Record) : List Record :=
  df.map fun r => { r with statistics_height := (roundHalfToEven r.statistics_height : Rat) }

/-- The height column of the rows with strictly positive height
(line 159 of main.py, `filtered_df_nonzero`). -/
def nonzero_heights (df : List Record) : List Rat :=
  (df.filter fun r => decide (0 < r.statistics_height)).map fun r => r.statistics_height

/-- The mean of a pandas series: missing (NaN) on an empty series,
otherwise sum over length. -/
def mean (l : List Rat) : Option Rat :=
  if l.isEmpty then none else some (l.sum / (l.length : Rat))

/-- The median of a pandas series: missing (NaN) on an empty series,
otherwise the middle element of the sorted values for odd length and the
average of the two middle elements for even length. -/
def median (l : List Rat) : Option Rat :=
  let s := List.insertionSort (fun a b => a ≤ b) l
  let n := s.length
  if n = 0 then none
  else if n % 2 = 1 then s[n / 2]?
  else do
    let a ← s[n / 2 - 1]?
    let b ← s[n / 2]?
    pure ((a + b) / 2)

/-- The summary table of the statistics tab. Aggregates of an empty
series are NaN in pandas, embedded as `none`. -/
structure Summary where
  tallest : Option Rat
  shortest : Option Rat
  average : Option Rat
  medianHeight : Option Rat
  count : Nat
deriving DecidableEq, Repr

/-- The statistics tab (lines 159 to 168 of main.py): max, min, mean
rounded to two decimals, median, and row count, all over the rows of the
input with strictly positive height. -/
def summary (df : List Record) : Summary :=
  let hs := nonzero_heights df
  { tallest := hs.max?
    shortest := hs.min?
    average := (mean hs).map roundTo2
    medianHeight := median hs
    count := hs.length }

/-- The distinct values of a column in order of first appearance, as
pandas `unique` and the index of `value_counts` produce them. -/
def unique_in_order (l : List String) : List String :=
  l.foldl (fun acc c => if c ∈ acc then acc else acc ++ [c]) []

/-- Pandas `value_counts`: one (value, count) pair per distinct value,
sorted by descending count (stable). -/
def value_counts (cs : List String) : List (String × Nat) :=
  List.insertionSort (fun a b => b.2 ≤ a.2)
    ((unique_in_order cs).map fun c => (c, cs.count c))

/-- The top-cities tab (line 176 of main.py):
`value_counts().head(10)` over the city column. -/
def city_counts (df : List Record) : List (String × Nat) :=
  (value_counts (df.map fun r => r.location_city)).take 10

/-- The completed years present in the table, with missing values
dropped (the `dropna()` of line 191). -/
def present_years (df : List Record) : List Int :=
  df.filterMap fun r => r.status_completed_year

/-- The index of the densified trend series for minimum year `m`
(lines 192 and 193 of main.py): the union of the integer range from `m`
up to but excluding 2025 with the set of present years, sorted
ascending, each label once. -/
def trend_index (m : Int) (ys : List Int) : List Int :=
  let all_years := (List.range (2025 - m).toNat).map fun i : Nat => m + (i : Int)
  List.insertionSort (fun a b => a ≤ b) (all_years ++ ys).dedup

/-- The trend tab (lines 191 to 193 of main.py): counts of completions
per present year, added onto a zero series indexed from the minimum
present year up to but excluding 2025, then sorted by year. On an empty
input `int()` of the NaN minimum of an empty index raises ValueError;
that failure is embedded as `none`. -/
def year_counts (df : List Record) : Option (List (Int × Nat)) :=
  let ys := present_years df
  match ys.min? with
  | none => none
  | some m => some ((trend_index m ys).map fun y => (y, ys.count y))

/-! Sample rows and parameters used by the witness theorems. -/

/-- A sample row completed in 1998 with height 250. -/
def rowA : Record := ⟨"A", some 1998, 250, none, none⟩

/-- A sample row completed in 2030 with height 80. -/
def rowB : Record := ⟨"B", some 2030, 80, none, none⟩

/-- A sample row with unknown completed year. -/
def rowU : Record := ⟨"U", none, 100, none, none⟩

/-- A sample row completed in 2023 with height 100. -/
def rowW : Record := ⟨"A", some 2023, 100, none, none⟩

/-- A sample row with height 7. -/
def rowH : Record := ⟨"A", some 2000, 7, none, none⟩

/-- Sample valid filter parameters with no city selected. -/
def paramsW : FilterParams := ⟨1990, 2010, 0, 1609, []⟩

/-- Membership in the output of the Filter Engine: a record is retained
exactly when it occurs in the input and passes the year, height and city
tests (the city test holding vacuously when no city is selected). -/
theorem mem_filtered_df {p : FilterParams} {df : List Record} {r : Record} :
    r ∈ filtered_df p df ↔
      r ∈ df ∧ yearPass p r = true ∧ heightPass p r = true ∧
        (p.cities = [] ∨ r.location_city ∈ p.cities) := by
  unfold filtered_df yearHeightFilter
  by_cases h : p.cities.isEmpty
  · have hnil : p.cities = [] := by simpa using h
    simp [h, hnil, List.mem_filter, and_assoc]
  · have hne : ¬ p.cities = [] := by simpa using h
    simp [h, hne, List.mem_filter, and_assoc]
    tauto

/-- C1: for every table and every valid filter parameter tuple, the
output of the Filter Engine is a subset of the input, every retained
record satisfies the year, height and city predicates, and no excluded
record satisfies all three. -/
theorem C1_filter_engine_sound (p : FilterParams) (df : List Record)
    (hy : p.yearMin ≤ p.yearMax) (hh : p.heightMin ≤ p.heightMax) :
    (∀ r ∈ filtered_df p df, r ∈ df) ∧
    (∀ r ∈ filtered_df p df, yearPass p r = true ∧ heightPass p r = true ∧
      (p.cities = [] ∨ r.location_city ∈ p.cities)) ∧
    (∀ r ∈ df, r ∉ filtered_df p df →
      ¬(yearPass p r = true ∧ heightPass p r = true ∧
        (p.cities = [] ∨ r.location_city ∈ p.cities))) :=
  ⟨fun r hr => (mem_filtered_df.mp hr).1,
   fun r hr => (mem_filtered_df.mp hr).2,
   fun r hr hnot hsat => hnot (mem_filtered_df.mpr ⟨hr, hsat⟩)⟩

/-- Witness for C1 at a concrete table and valid parameters. -/
theorem C1_witness :
    (paramsW.yearMin ≤ paramsW.yearMax ∧ paramsW.heightMin ≤ paramsW.heightMax) ∧
    ((∀ r ∈ filtered_df paramsW [rowA, rowB], r ∈ [rowA, rowB]) ∧
     (∀ r ∈ filtered_df paramsW [rowA, rowB],
        yearPass paramsW r = true ∧ heightPass paramsW r = true ∧
          (paramsW.cities = [] ∨ r.location_city ∈ paramsW.cities)) ∧
     (∀ r ∈ [rowA, rowB], r ∉ filtered_df paramsW [rowA, rowB] →
        ¬(yearPass paramsW r = true ∧ heightPass paramsW r = true ∧
          (paramsW.cities = [] ∨ r.location_city ∈ paramsW.cities)))) :=
  ⟨⟨by decide, by decide⟩,
   C1_filter_engine_sound paramsW [rowA, rowB] (by decide) (by decide)⟩

/-- C2: a record whose completed year is unknown (missing after the zero
sentinel conversion) is excluded by the Filter Engine for every year
range, since both pandas comparisons against the missing value are
false. -/
theorem C2_unknown_year_excluded (p : FilterParams) (df : List Record)
    (r : Record) (h : r.status_completed_year = none) :
    r ∉ filtered_df p df := by
  intro hmem
  have hy := (mem_filtered_df.mp hmem).2.1
  simp [yearPass, h] at hy

/-- Witness for C2 at a concrete unknown-year record. -/
theorem C2_witness :
    rowU.status_completed_year = none ∧ rowU ∉ filtered_df paramsW [rowU] :=
  ⟨rfl, C2_unknown_year_excluded paramsW [rowU] rowU rfl⟩

/-- C3: the claim says every view handles an empty filtered subset
without throwing, but the trend tab does not: on the empty subset the
`dropna` series is empty, the minimum of its index is NaN, and
`int(NaN)` on line 192 raises ValueError, embedded here as the `none`
result of `year_counts`. The sample selection is a valid year range
(2000 to 2020) that excludes the single 1998 record. -/
theorem C3_trend_tab_raises_on_empty :
    filtered_df ⟨2000, 2020, 0, 1609, []⟩ [rowA] = [] ∧
    year_counts (filtered_df ⟨2000, 2020, 0, 1609, []⟩ [rowA]) = none :=
  ⟨by decide, by decide⟩

/-- The densified trend index collapses to the plain year range when
every present year lies below the fixed 2025 bound. -/
theorem trend_index_eq (ys : List Int) (m : Int)
    (hm_le : ∀ y ∈ ys, m ≤ y) (hlt : ∀ y ∈ ys, y < 2025) :
    trend_index m ys = (List.range (2025 - m).toNat).map fun i : Nat => m + (i : Int) := by
  have hsub : ∀ y ∈ ys, y ∈ (List.range (2025 - m).toNat).map fun i : Nat => m + (i : Int) := by
    intro y hy
    refine List.mem_map.mpr ⟨(y - m).toNat, List.mem_range.mpr ?_, ?_⟩
    · have := hm_le y hy; have := hlt y hy; omega
    · have := hm_le y hy; omega
  have hnodup : ((List.range (2025 - m).toNat).map fun i : Nat => m + (i : Int)).Nodup := by
    refine List.Nodup.map ?_ (List.nodup_range _)
    intro i j hij
    have hij2 : m + (i : Int) = m + (j : Int) := hij
    omega
  have hperm : ((((List.range (2025 - m).toNat).map fun i : Nat => m + (i : Int)) ++ ys).dedup).Perm
      ((List.range (2025 - m).toNat).map fun i : Nat => m + (i : Int)) := by
    refine (List.perm_ext_iff_of_nodup (List.nodup_dedup _) hnodup).mpr ?_
    intro x
    rw [List.mem_dedup, List.mem_append]
    exact ⟨fun h => h.elim id (hsub x), Or.inl⟩
  have hsorted_base :
      List.Sorted (fun a b => a ≤ b)
        ((List.range (2025 - m).toNat).map fun i : Nat => m + (i : Int)) := by
    show List.Pairwise _ _
    refine List.Pairwise.map _ ?_ (List.pairwise_lt_range _)
    intro a b hab
    show m + (a : Int) ≤ m + (b : Int)
    omega
  exact List.eq_of_perm_of_sorted
    ((List.perm_insertionSort _ _).trans hperm)
    (List.sorted_insertionSort _ _) hsorted_base

/-- C4 counterexample: a table whose single record is completed in 2030
has a trend series of one entry, while the claimed entry count
`2025 - minYear` is negative; the claim fails whenever a present year
reaches 2025, because the pandas index union keeps such years as extra
labels beyond the range index. -/
theorem C4_counterexample :
    year_counts [⟨"A", some 2030, 100, none, none⟩] = some [((2030 : Int), 1)] ∧
    (([((2030 : Int), 1)] : List (Int × Nat)).length : Int) ≠ 2025 - 2030 :=
  ⟨by decide, by decide⟩

/-- C4 amended: for every table whose present completed years all lie
below 2025, with minimum present year `m`, the trend series exists and
has exactly `2025 - m` entries, the entry at position `i` is the
consecutive year `m + i` paired with its number of completions, and
every year in the range absent from the data has count 0. -/
theorem C4_trend_densified_below_2025 (df : List Record) (m : Int)
    (hmin : (present_years df).min? = some m)
    (hlt : ∀ y ∈ present_years df, y < 2025) :
    ∃ l, year_counts df = some l ∧
      (l.length : Int) = 2025 - m ∧
      (∀ i : Nat, (hi : i < l.length) →
        l.get ⟨i, hi⟩ = (m + i, (present_years df).count (m + i))) ∧
      (∀ i : Nat, (hi : i < l.length) →
        (m + (i : Int)) ∉ present_years df → (l.get ⟨i, hi⟩).2 = 0) := by
  have hm_mem : m ∈ present_years df := List.min?_mem (fun a b => min_choice a b) hmin
  have hm_le : ∀ y ∈ present_years df, m ≤ y :=
    (List.le_min?_iff (fun _ _ _ => le_min_iff) hmin).mp (le_refl m)
  have heq := trend_index_eq (present_years df) m hm_le hlt
  refine ⟨(List.range (2025 - m).toNat).map
      (fun i : Nat => (m + (i : Int), (present_years df).count (m + (i : Int)))), ?_, ?_, ?_, ?_⟩
  · simp only [year_counts, hmin]
    rw [heq, List.map_map]
    rfl
  · simp only [List.length_map, List.length_range]
    have : m < 2025 := hlt m hm_mem
    omega
  · intro i hi
    simp [List.get_eq_getElem, List.getElem_map, List.getElem_range]
  · intro i hi hnot
    have hz : (present_years df).count (m + (i : Int)) = 0 := List.count_eq_zero.mpr hnot
    simp [List.get_eq_getElem, List.getElem_map, List.getElem_range, hz]

/-- Witness for the amended C4 at a table with one record from 2023. -/
theorem C4_witness :
    (present_years [rowW]).min? = some 2023 ∧
    (∀ y ∈ present_years [rowW], y < 2025) ∧
    (∃ l, year_counts [rowW] = some l ∧
      (l.length : Int) = 2025 - 2023 ∧
      (∀ i : Nat, (hi : i < l.length) →
        l.get ⟨i, hi⟩ = ((2023 : Int) + i, (present_years [rowW]).count ((2023 : Int) + i))) ∧
      (∀ i : Nat, (hi : i < l.length) →
        ((2023 : Int) + (i : Int)) ∉ present_years [rowW] → (l.get ⟨i, hi⟩).2 = 0)) :=
  ⟨rfl, by decide, C4_trend_densified_below_2025 [rowW] 2023 rfl (by decide)⟩

/-- C5 counterexample: rendering the 3D-map tab does not leave the
shared filtered table unchanged; on a record of height 52/5 the height
column is rounded in place to 10, so the table the later tabs read
differs from the filter output. -/
theorem C5_counterexample :
    tab2_round_heights [⟨"A", some 2000, Rat.divInt 52 5, none, none⟩]
      ≠ [⟨"A", some 2000, Rat.divInt 52 5, none, none⟩] := by decide

/-- C5 amended: the 3D-map tab replaces every height in the shared
filtered table by its rounded value and changes nothing else, so the
statistics and export views read rounded heights rather than the
un-rounded filter output, while the trend and top-cities outputs, which
depend only on the year and city columns, are unchanged. -/
theorem C5_map_tab_rounds_shared_table (df : List Record) :
    (tab2_round_heights df).map (fun r => r.location_city)
      = df.map (fun r => r.location_city) ∧
    (tab2_round_heights df).map (fun r => r.status_completed_year)
      = df.map (fun r => r.status_completed_year) ∧
    (tab2_round_heights df).map (fun r => r.statistics_height)
      = df.map (fun r => (roundHalfToEven r.statistics_height : Rat)) ∧
    year_counts (tab2_round_heights df) = year_counts df ∧
    city_counts (tab2_round_heights df) = city_counts df := by
  have hcities : (tab2_round_heights df).map (fun r => r.location_city)
      = df.map (fun r => r.location_city) := by
    unfold tab2_round_heights
    rw [List.map_map]
    rfl
  have hyears : present_years (tab2_round_heights df) = present_years df := by
    unfold present_years tab2_round_heights
    rw [List.filterMap_map]
    rfl
  refine ⟨hcities, ?_, ?_, ?_, ?_⟩
  · unfold tab2_round_heights
    rw [List.map_map]
    rfl
  · unfold tab2_round_heights
    rw [List.map_map]
    rfl
  · unfold year_counts
    rw [hyears]
  · unfold city_counts
    rw [hcities]

/-- C6 counterexample: on a table whose strictly-positive-height subset
is exactly one record of height 1/1000, the displayed mean is the
two-decimal rounding 0, not the height itself, so the claimed
`mean = H` fails. -/
theorem C6_counterexample :
    nonzero_heights [⟨"A", some 2000, Rat.divInt 1 1000, none, none⟩]
      = [Rat.divInt 1 1000] ∧
    (summary [⟨"A", some 2000, Rat.divInt 1 1000, none, none⟩]).average
      ≠ some (Rat.divInt 1 1000) := by
  constructor
  · decide
  · have h : nonzero_heights [⟨"A", some 2000, Rat.divInt 1 1000, none, none⟩]
        = [Rat.divInt 1 1000] := by decide
    have h2 : roundHalfToEvenND ((Rat.divInt 1 1000).num * 100)
        ((Rat.divInt 1 1000).den : Int) = 0 := by decide
    simp [summary, mean, h, roundTo2, h2]
    intro hc
    exact absurd hc (by decide)

/-- C6 amended: on an input whose strictly-positive-height subset is
exactly one record of height `H`, the statistics view yields
max = min = median = `H`, mean = `H` rounded to two decimal places, and
count 1; on an input with no positive-height record it yields count 0
and missing aggregates, without error. -/
theorem C6_summary_single_and_empty (df dfe : List Record) (H : Rat)
    (h1 : nonzero_heights df = [H]) (h2 : nonzero_heights dfe = []) :
    (summary df).tallest = some H ∧ (summary df).shortest = some H ∧
    (summary df).average = some (roundTo2 H) ∧
    (summary df).medianHeight = some H ∧ (summary df).count = 1 ∧
    (summary dfe).count = 0 ∧ (summary dfe).tallest = none ∧
    (summary dfe).shortest = none ∧ (summary dfe).average = none ∧
    (summary dfe).medianHeight = none := by
  refine ⟨?_, ?_, ?_, ?_, ?_, ?_, ?_, ?_, ?_, ?_⟩ <;>
    simp [summary, h1, h2, mean, median]

/-- Witness for the amended C6 at a one-record table of height 7 and the
empty table. -/
theorem C6_witness :
    nonzero_heights [rowH] = [(7 : Rat)] ∧ nonzero_heights [] = [] ∧
    ((summary [rowH]).tallest = some 7 ∧ (summary [rowH]).shortest = some 7 ∧
     (summary [rowH]).average = some (roundTo2 7) ∧
     (summary [rowH]).medianHeight = some 7 ∧ (summary [rowH]).count = 1 ∧
     (summary []).count = 0 ∧ (summary []).tallest = none ∧
     (summary []).shortest = none ∧ (summary []).average = none ∧
     (summary []).medianHeight = none) :=
  ⟨by decide, rfl, C6_summary_single_and_empty [rowH] [] 7 (by decide) rfl⟩

instance : IsTotal (String × Nat) (fun a b => b.2 ≤ a.2) :=
  ⟨fun a b => le_total b.2 a.2⟩

instance : IsTrans (String × Nat) (fun a b => b.2 ≤ a.2) :=
  ⟨fun _ _ _ h1 h2 => le_trans h2 h1⟩

/-- C7: the top-cities view returns at most 10 entries and they are
sorted by descending count. -/
theorem C7_top_cities_bounded_sorted (df : List Record) :
    (city_counts df).length ≤ 10 ∧
    List.Sorted (fun a b => b.2 ≤ a.2) (city_counts df) := by
  constructor
  · exact List.length_take_le 10 _
  · exact List.Pairwise.sublist (List.take_sublist _ _)
      (List.sorted_insertionSort _ _)

/-- C8: with an empty city selection the Filter Engine output coincides
with the pure year-and-height filtering, so the city predicate has no
effect. -/
theorem C8_empty_city_selection (df : List Record)
    (ymin ymax : Int) (hmin hmax : Rat) :
    filtered_df ⟨ymin, ymax, hmin, hmax, []⟩ df
      = yearHeightFilter ⟨ymin, ymax, hmin, hmax, []⟩ df := rfl

/-- C9: filtering is idempotent; applying the Filter Engine to its own
output with the same parameters returns the same list of records. -/
theorem C9_filtering_idempotent (p : FilterParams) (df : List Record) :
    filtered_df p (filtered_df p df) = filtered_df p df := by
  have hbase : yearHeightFilter p (filtered_df p df) = filtered_df p df := by
    apply List.filter_eq_self.mpr
    intro r hr
    rcases mem_filtered_df.mp hr with ⟨-, hy, hh, -⟩
    simp [hy, hh]
  show (if p.cities.isEmpty then yearHeightFilter p (filtered_df p df)
        else (yearHeightFilter p (filtered_df p df)).filter
          fun r => decide (r.location_city ∈ p.cities)) = filtered_df p df
  rw [hbase]
  by_cases h : p.cities.isEmpty
  · simp [h]
  · have hne : ¬ p.cities = [] := by simpa using h
    simp only [h, if_false]
    apply List.filter_eq_self.mpr
    intro r hr
    rcases mem_filtered_df.mp hr with ⟨-, -, -, hc⟩
    rcases hc with hc | hc
    · exact absurd hc hne
    · simp [hc]

/-- C10: the Filter Engine output is a subsequence of the input table;
rows keep their relative order and are never duplicated. -/
theorem C10_filter_preserves_order (p : FilterParams) (df : List Record) :
    List.Sublist (filtered_df p df) df := by
  unfold filtered_df yearHeightFilter
  by_cases h : p.cities.isEmpty
  · simp only [h, if_true]
    exact List.filter_sublist _
  · simp only [h, if_false]
    exact (List.filter_sublist _).trans (List.filter_sublist _)

end Skyscrapers
